import Mathlib

/-!
Verification of the go-chat-room server core (package `routes` of
`server/internal`, together with package `model`).

The embedding below translates the registry data model
(`model.User`, `model.Users`, `model.LoggedUsers`) and the handler
operations of `server/internal/routes/handler.go` (`login`, `logout`,
`CleanupUserData`, `DisconnectChannel`, `BindChannelToUserIfExists`,
and the handshake / termination portions of `stream`) into pure Lean
functions.

Modelling decisions:
* A Go `chan []byte` value is represented by an allocation identifier
  (`Nat`); the value `none` of `Option Nat` is Go's `nil` channel.
  The set of already-closed channels and the allocation counter live in
  the `Handler` state, so that `close` on an already-closed channel can
  be modelled as the Go run-time panic it is (`GoPanic`).
* The Go map `map[string]model.User` is an association list with
  Go map semantics: indexing a missing key yields the zero value,
  assignment updates in place or appends, `delete` removes the key.
* `uuid.NewString()` is nondeterministic; the generated token is passed
  to `login` as an explicit oracle argument.
-/

namespace ChatRoom

/-- `model.User` (`server/internal/model/user.go`): username, token, and
the outbound channel reference (`nil` when no stream is bound). -/
structure User where
  username : String
  token    : String
  channel  : Option Nat
deriving Repr, DecidableEq

/-- `model.Users`: `map[string]model.User`, keyed by username. -/
abbrev Users := List (String × User)

/-- Go map indexing with comma-ok: `v, ok := m[k]`. -/
def mapLookup : Users → String → Option User
  | [], _ => none
  | (k, v) :: rest, key => if k = key then some v else mapLookup rest key

/-- Go map indexing without comma-ok: a missing key yields the zero
value `User{"", "", nil}`. -/
def mapIndex (m : Users) (key : String) : User :=
  (mapLookup m key).getD { username := "", token := "", channel := none }

/-- Go map assignment `m[k] = v`: update the existing binding in place,
or append a new one. -/
def mapAssign : Users → String → User → Users
  | [], key, v => [(key, v)]
  | (k, w) :: rest, key, v =>
      if k = key then (key, v) :: rest else (k, w) :: mapAssign rest key v

/-- Go `delete(m, k)`. -/
def mapDelete : Users → String → Users
  | [], _ => []
  | (k, w) :: rest, key =>
      if k = key then mapDelete rest key else (k, w) :: mapDelete rest key

/-- The shared server state: the registry `handler.LoggedUsers.Users`,
plus the channel world (allocation counter for `make(chan []byte)` and
the set of channels on which `close` has run). -/
structure Handler where
  users    : Users
  nextCh   : Nat
  closedCh : List Nat
deriving Repr, DecidableEq

/-- Go run-time panics reachable in the embedded code. -/
inductive GoPanic where
  | closeOfClosedChannel
deriving Repr, DecidableEq

/-- Go `close(ch)`: marks the channel closed; panics if it is already
closed. -/
def closeChan (h : Handler) (c : Nat) : Except GoPanic Handler :=
  if c ∈ h.closedCh then .error .closeOfClosedChannel
  else .ok { h with closedCh := c :: h.closedCh }

/-- `DisconnectChannel` (handler.go lines 155-162): reads the user's
record, closes its channel when non-nil, and writes the record back
unchanged. Note that the `Channel` field of the written-back record is
exactly the one that was read: it is never set to `nil`. -/
def DisconnectChannel (h : Handler) (username : String) : Except GoPanic Handler :=
  let userToLogout := mapIndex h.users username
  match userToLogout.channel with
  | some c =>
      match closeChan h c with
      | .error p => .error p
      | .ok h1 => .ok { h1 with users := mapAssign h1.users username userToLogout }
  | none => .ok { h with users := mapAssign h.users username userToLogout }

/-- `CleanupUserData` (handler.go lines 148-152): `DisconnectChannel`
followed by `delete` of the registry entry. -/
def CleanupUserData (h : Handler) (username : String) : Except GoPanic Handler :=
  match DisconnectChannel h username with
  | .error p => .error p
  | .ok h1 => .ok { h1 with users := mapDelete h1.users username }

/-- Outcome of the `login` handler's registry transaction. -/
inductive LoginOutcome where
  | alreadyLoggedIn
  | ok (token : String)
deriving Repr, DecidableEq

/-- The registry transaction of `login` (handler.go lines 64-84), after
method/body/decode checks. `freshToken` is the value produced by
`uuid.NewString()`. -/
def login (h : Handler) (username : String) (freshToken : String) :
    LoginOutcome × Handler :=
  if (mapLookup h.users username).isSome then
    (.alreadyLoggedIn, h)
  else
    let newUser : User := { username := username, token := freshToken, channel := none }
    (.ok freshToken, { h with users := mapAssign h.users username newUser })

/-- Outcome of the `logout` handler's registry transaction. -/
inductive LogoutOutcome where
  | notLoggedIn
  | invalidToken
  | success
deriving Repr, DecidableEq

/-- The registry transaction of `logout` (handler.go lines 122-145),
after method/body/decode checks: existence check, token check, then
`CleanupUserData`. A `.error` value is the Go run-time panic raised by
`close` inside `CleanupUserData`. -/
def logout (h : Handler) (username token : String) :
    Except GoPanic (LogoutOutcome × Handler) :=
  if (mapLookup h.users username).isNone then .ok (.notLoggedIn, h)
  else if (mapIndex h.users username).token ≠ token then .ok (.invalidToken, h)
  else
    match CleanupUserData h username with
    | .error p => .error p
    | .ok h1 => .ok (.success, h1)

/-- Outcome of `BindChannelToUserIfExists`. -/
inductive BindOutcome where
  | notLoggedIn
  | invalidToken
  | bound
deriving Repr, DecidableEq

/-- `BindChannelToUserIfExists` (handler.go lines 260-290): existence
check, token check, then `make(chan []byte)` and assignment of the new
channel into the user's record. -/
def BindChannelToUserIfExists (h : Handler) (username token : String) :
    BindOutcome × Handler :=
  if (mapLookup h.users username).isNone then (.notLoggedIn, h)
  else if (mapIndex h.users username).token ≠ token then (.invalidToken, h)
  else
    let currentUser := mapIndex h.users username
    let currentUser := { currentUser with channel := some h.nextCh }
    (.bound,
      { h with users := mapAssign h.users username currentUser,
               nextCh := h.nextCh + 1 })

/-- The termination block of `stream` (handler.go lines 248-255): after
`listenForMessages` returns, the handler locks the registry and runs
`DisconnectChannel` for the connection's user. -/
def streamTermination (h : Handler) (username : String) : Except GoPanic Handler :=
  DisconnectChannel h username

/-! ### JSON decoding model

`login` decodes its body into `model.UserLoginRequest` and the `stream`
handshake unmarshals its first frame into `model.UserWithTokenRequest`
(`server/internal/model/request.go`). Both structs have only `string`
fields with lower-case JSON tags. The functions below model the
behaviour of Go's `encoding/json.Unmarshal` for exactly these two
struct types: a missing field or a JSON `null` leaves the zero value
`""` in place without error; a field of any other non-string JSON type
is an `UnmarshalTypeError`; a top-level value that is not an object
(and not `null`) is an error; unknown fields are ignored; for a
duplicated key the last occurrence wins. -/

/-- A JSON value (the payload after syntactic parsing). -/
inductive JsonValue where
  | null
  | bool (b : Bool)
  | num (n : Int)
  | str (s : String)
  | arr (elems : List JsonValue)
  | obj (fields : List (String × JsonValue))

/-- Field lookup in a JSON object; with `encoding/json`, for duplicate
keys the last occurrence wins. -/
def fieldLookup : List (String × JsonValue) → String → Option JsonValue
  | [], _ => none
  | (k, v) :: rest, key =>
      match fieldLookup rest key with
      | some w => some w
      | none => if k = key then some v else none

/-- Unmarshalling one JSON field into a Go `string` struct field:
absent or `null` keeps the zero value `""`; a string is taken as is;
anything else is a type error. -/
def decodeStringField : Option JsonValue → Option String
  | none => some ""
  | some .null => some ""
  | some (.str s) => some s
  | some _ => none

/-- `model.UserLoginRequest` (request.go lines 3-5). -/
structure UserLoginRequest where
  username : String
deriving Repr, DecidableEq

/-- `model.UserWithTokenRequest` (request.go lines 7-10). -/
structure UserWithTokenRequest where
  username : String
  token    : String
deriving Repr, DecidableEq

/-- `json.Unmarshal` / `Decode` into `model.UserLoginRequest`. -/
def unmarshalUserLogin : JsonValue → Option UserLoginRequest
  | .null => some { username := "" }
  | .obj fields =>
      match decodeStringField (fieldLookup fields "username") with
      | some u => some { username := u }
      | none => none
  | _ => none

/-- `json.Unmarshal` into `model.UserWithTokenRequest`. -/
def unmarshalUserWithToken : JsonValue → Option UserWithTokenRequest
  | .null => some { username := "", token := "" }
  | .obj fields =>
      match decodeStringField (fieldLookup fields "username"),
            decodeStringField (fieldLookup fields "token") with
      | some u, some t => some { username := u, token := t }
      | _, _ => none
  | _ => none

/-- Parsing the first inbound frame of a stream connection: `none`
stands for a frame that is not syntactically valid JSON at all,
`some j` for one that parses to the JSON value `j`; the result is the
decoded handshake request, or `none` when `json.Unmarshal` errors
(handler.go lines 186-199). -/
def handshakeParse : Option JsonValue → Option UserWithTokenRequest
  | none => none
  | some j => unmarshalUserWithToken j

/-- Outcome of the `stream` handshake (parse step plus
`BindChannelToUserIfExists`). -/
inductive StreamOutcome where
  | malformedHandshake
  | notLoggedIn
  | invalidToken
  | bound
deriving Repr, DecidableEq

/-- The handshake portion of `stream` (handler.go lines 180-246): the
first frame is unmarshalled; on a decode error the handler reports the
malformed handshake and returns without touching the registry;
otherwise the decoded identity and token go to
`BindChannelToUserIfExists`. -/
def streamHandshake (h : Handler) (frame : Option JsonValue) :
    StreamOutcome × Handler :=
  match handshakeParse frame with
  | none => (.malformedHandshake, h)
  | some req =>
      match BindChannelToUserIfExists h req.username req.token with
      | (.notLoggedIn, h1) => (.notLoggedIn, h1)
      | (.invalidToken, h1) => (.invalidToken, h1)
      | (.bound, h1) => (.bound, h1)

/-! ### Lock / I/O event traces

To reason about what happens while the registry lock is held, each
operation is also given as the sequence of lock, network-write and
in-memory-mutation events it performs, in source order. `Lock()` is
taken explicitly; `Unlock()` is deferred, so it fires after every event
of the function body, including response writes. -/

/-- An observable event of a handler operation. -/
inductive Ev where
  | lock
  | unlock
  | netWrite
  | memMutate
deriving Repr, DecidableEq

/-- Event trace of `login` (handler.go lines 64-84): `Lock` (64), then
either `http.Error` (69) for a duplicate user, or the map assignment
(76) followed by the JSON response write (83); the deferred `Unlock`
(65) runs last. -/
def loginTrace (h : Handler) (username : String) : List Ev :=
  if (mapLookup h.users username).isSome then [.lock, .netWrite, .unlock]
  else [.lock, .memMutate, .netWrite, .unlock]

/-- Event trace of `logout` (handler.go lines 122-145): `Lock` (122),
then `http.Error` (127 or 135) on failure, or the cleanup mutations
(140) followed by the JSON response write (144) — unless `close`
panics, in which case only the deferred `Unlock` still runs. -/
def logoutTrace (h : Handler) (username token : String) : List Ev :=
  if (mapLookup h.users username).isNone then [.lock, .netWrite, .unlock]
  else if (mapIndex h.users username).token ≠ token then [.lock, .netWrite, .unlock]
  else
    match CleanupUserData h username with
    | .error _ => [.lock, .memMutate, .unlock]
    | .ok _ => [.lock, .memMutate, .netWrite, .unlock]

/-- Event trace of `BindChannelToUserIfExists` (handler.go lines
260-290): `Lock` (261), then `websocket.WriteMessage` (267 or 278) on
the two failure paths, or the channel allocation and map assignment
(286-287) on success; the deferred `Unlock` (262) runs last. -/
def bindTrace (h : Handler) (username token : String) : List Ev :=
  if (mapLookup h.users username).isNone then [.lock, .netWrite, .unlock]
  else if (mapIndex h.users username).token ≠ token then [.lock, .netWrite, .unlock]
  else [.lock, .memMutate, .unlock]

/-- Event trace of the `stream` termination block (handler.go lines
252-254): `Lock`, `DisconnectChannel` (an in-memory mutation), deferred
`Unlock`. -/
def streamTerminationTrace : List Ev :=
  [.lock, .memMutate, .unlock]

/-- Whether some network write in the trace happens while the lock
depth is positive. -/
def netWriteWhileLocked : List Ev → Nat → Bool
  | [], _ => false
  | .lock :: rest, d => netWriteWhileLocked rest (d + 1)
  | .unlock :: rest, d => netWriteWhileLocked rest (d - 1)
  | .netWrite :: rest, d => decide (0 < d) || netWriteWhileLocked rest d
  | .memMutate :: rest, d => netWriteWhileLocked rest d

/-! ### Concrete registry fixtures -/

/-- The freshly started server: empty registry, no channels. -/
def h0 : Handler := { users := [], nextCh := 0, closedCh := [] }

/-- The user `alice` after a successful login: token `t1`, no channel. -/
def hLoggedIn : Handler :=
  { users := [("alice", { username := "alice", token := "t1", channel := none })],
    nextCh := 0, closedCh := [] }

/-- The user `alice` after login and a successful stream bind: channel
`0` attached and open. -/
def hBound : Handler :=
  { users := [("alice", { username := "alice", token := "t1", channel := some 0 })],
    nextCh := 1, closedCh := [] }

/-- The user `alice` after her stream has terminated: channel `0` is
closed, yet the registry record still references it. -/
def hDisconnected : Handler :=
  { users := [("alice", { username := "alice", token := "t1", channel := some 0 })],
    nextCh := 1, closedCh := [0] }

/-! ### Association-list lemmas -/

theorem lookup_assign_self (m : Users) (k : String) (v : User) :
    mapLookup (mapAssign m k v) k = some v := by
  induction m with
  | nil => simp [mapAssign, mapLookup]
  | cons p rest ih =>
      obtain ⟨k1, v1⟩ := p
      by_cases hk : k1 = k
      · simp [mapAssign, hk, mapLookup]
      · simp [mapAssign, hk, mapLookup, ih]

theorem mapIndex_of_lookup {m : Users} {k : String} {u : User}
    (h : mapLookup m k = some u) : mapIndex m k = u := by
  simp [mapIndex, h]

/-! ### Claim theorems -/

/-- Claim C1. The claim states that when a stream terminates the
session's channel is closed AND the channel reference in the record is
cleared back to nil, with the entry remaining. The code (handler.go
155-162) closes the channel and keeps the entry, but writes the record
back with the `Channel` field untouched: starting from `alice` bound to
open channel `0`, stream termination yields exactly `hDisconnected`,
whose record still references channel `0` (non-nil) even though `0` is
now closed. This theorem evaluates the code at that failing input. -/
theorem c1_stream_termination_keeps_channel_reference :
    streamTermination hBound "alice" = .ok hDisconnected ∧
    mapLookup hDisconnected.users "alice" =
      some { username := "alice", token := "t1", channel := some 0 } ∧
    (mapIndex hDisconnected.users "alice").channel ≠ none ∧
    0 ∈ hDisconnected.closedCh :=
  ⟨rfl, rfl, by simp [hDisconnected, mapIndex, mapLookup], by simp [hDisconnected]⟩

/-- Claim C2. For every session whose stream has terminated
(`DisconnectChannel` ran once on an open channel), the record still
holds the non-nil reference to the now-closed channel, so a subsequent
`Logout` with the correct identity and token reaches
`DisconnectChannel` again, passes the `Channel != nil` guard, and runs
`close` on the already-closed channel — a Go run-time panic. -/
theorem c2_logout_after_disconnect_panics
    (h : Handler) (username token : String) (u : User) (c : Nat)
    (hu : mapLookup h.users username = some u)
    (ht : u.token = token)
    (hc : u.channel = some c)
    (hopen : c ∉ h.closedCh) :
    ∃ h1, streamTermination h username = .ok h1 ∧
      mapLookup h1.users username = some u ∧
      c ∈ h1.closedCh ∧
      logout h1 username token = .error .closeOfClosedChannel := by
  subst ht
  refine ⟨⟨mapAssign h.users username u, h.nextCh, c :: h.closedCh⟩, ?_, ?_, ?_, ?_⟩
  · simp [streamTermination, DisconnectChannel, mapIndex_of_lookup hu, hc,
      closeChan, hopen]
  · exact lookup_assign_self h.users username u
  · simp
  · simp [logout, CleanupUserData, DisconnectChannel, closeChan,
      mapIndex_of_lookup (lookup_assign_self h.users username u),
      lookup_assign_self, hc]

/-- Claim C2 witness: the generic theorem applied to the concrete state
`hBound` (`alice`, token `t1`, open channel `0`). -/
theorem c2_logout_after_disconnect_panics_witness :
    (mapLookup hBound.users "alice" =
      some { username := "alice", token := "t1", channel := some 0 }) ∧
    (∃ h1, streamTermination hBound "alice" = .ok h1 ∧
      mapLookup h1.users "alice" =
        some { username := "alice", token := "t1", channel := some 0 } ∧
      0 ∈ h1.closedCh ∧
      logout h1 "alice" "t1" = .error .closeOfClosedChannel) :=
  ⟨rfl, c2_logout_after_disconnect_panics hBound "alice" "t1"
    { username := "alice", token := "t1", channel := some 0 } 0
    rfl rfl rfl (by simp [hBound])⟩

/-- Claim C3. The claim gives the full logout case analysis, with the
match case unconditionally removing the entry, closing any attached
channel and returning success. On the state `hDisconnected` — reachable
by login, stream bind, and stream termination — the identity is present
and the token matches, yet `logout` panics (close of an already-closed
channel) instead of succeeding: the code evaluated at the failing
input. -/
theorem c3_logout_panics_on_disconnected_session :
    (mapIndex hDisconnected.users "alice").token = "t1" ∧
    logout hDisconnected "alice" "t1" = .error .closeOfClosedChannel :=
  ⟨rfl, rfl⟩

/-- Claim C4. `login` on an identity already present fails with
`AlreadyLoggedIn` and leaves the registry (in particular its size)
unchanged; on an absent identity it inserts
`{identity, freshToken, channel: none}` and returns the fresh token. -/
theorem c4_login_semantics (h : Handler) (username freshToken : String) :
    ((mapLookup h.users username).isSome →
      login h username freshToken = (.alreadyLoggedIn, h) ∧
      (login h username freshToken).2.users.length = h.users.length) ∧
    (mapLookup h.users username = none →
      (login h username freshToken).1 = .ok freshToken ∧
      mapLookup (login h username freshToken).2.users username =
        some { username := username, token := freshToken, channel := none }) := by
  constructor
  · intro hs
    simp [login, hs]
  · intro hn
    simp [login, hn, lookup_assign_self]

/-- Claim C4 witness: a second login for `alice` fails with the
registry unchanged; a first login for `alice` on the empty registry
inserts her record and returns the token. -/
theorem c4_login_semantics_witness :
    ((mapLookup hLoggedIn.users "alice").isSome = true ∧
      (login hLoggedIn "alice" "t2" = (.alreadyLoggedIn, hLoggedIn) ∧
        (login hLoggedIn "alice" "t2").2.users.length = hLoggedIn.users.length)) ∧
    (mapLookup h0.users "alice" = none ∧
      ((login h0 "alice" "t1").1 = .ok "t1" ∧
        mapLookup (login h0 "alice" "t1").2.users "alice" =
          some { username := "alice", token := "t1", channel := none })) :=
  ⟨⟨rfl, (c4_login_semantics hLoggedIn "alice" "t2").1 rfl⟩,
   ⟨rfl, (c4_login_semantics h0 "alice" "t1").2 rfl⟩⟩

/-- Claim C5. A stream handshake whose identity is absent, or whose
token mismatches the stored one, is rejected by
`BindChannelToUserIfExists` and the whole state — registry entries and
channel world alike — is returned unchanged. -/
theorem c5_bind_failure_leaves_registry_unchanged
    (h : Handler) (username token : String)
    (hfail : mapLookup h.users username = none ∨
      ∃ u, mapLookup h.users username = some u ∧ u.token ≠ token) :
    (BindChannelToUserIfExists h username token).1 ≠ .bound ∧
    (BindChannelToUserIfExists h username token).2 = h := by
  rcases hfail with hn | ⟨u, hu, ht⟩
  · simp [BindChannelToUserIfExists, hn]
  · simp [BindChannelToUserIfExists, hu, mapIndex_of_lookup hu, ht]

/-- Claim C5 witness: binding `alice` with the wrong token `bad` on
`hLoggedIn` is rejected and the state is returned untouched. -/
theorem c5_bind_failure_leaves_registry_unchanged_witness :
    (∃ u, mapLookup hLoggedIn.users "alice" = some u ∧ u.token ≠ "bad") ∧
    ((BindChannelToUserIfExists hLoggedIn "alice" "bad").1 ≠ .bound ∧
      (BindChannelToUserIfExists hLoggedIn "alice" "bad").2 = hLoggedIn) :=
  ⟨⟨{ username := "alice", token := "t1", channel := none }, rfl, by decide⟩,
   c5_bind_failure_leaves_registry_unchanged hLoggedIn "alice" "bad"
     (Or.inr ⟨{ username := "alice", token := "t1", channel := none }, rfl, by decide⟩)⟩

/-- Claim C7. A validating stream bind attaches the freshly allocated
(non-nil) channel to the session record; a second successful bind for
the same identity also succeeds and silently overwrites the channel
reference with the newer allocation. -/
theorem c7_bind_attaches_and_rebind_overwrites
    (h : Handler) (username token : String) (u : User)
    (hu : mapLookup h.users username = some u)
    (ht : u.token = token) :
    (BindChannelToUserIfExists h username token).1 = .bound ∧
    mapLookup (BindChannelToUserIfExists h username token).2.users username =
      some { u with channel := some h.nextCh } ∧
    (BindChannelToUserIfExists
      (BindChannelToUserIfExists h username token).2 username token).1 = .bound ∧
    mapLookup (BindChannelToUserIfExists
      (BindChannelToUserIfExists h username token).2 username token).2.users username =
      some { u with channel := some (h.nextCh + 1) } ∧
    some (h.nextCh + 1) ≠ some h.nextCh := by
  subst ht
  have hl1 : mapLookup (mapAssign h.users username { u with channel := some h.nextCh })
      username = some { u with channel := some h.nextCh } :=
    lookup_assign_self h.users username { u with channel := some h.nextCh }
  have h1eq : BindChannelToUserIfExists h username u.token =
      (.bound, ⟨mapAssign h.users username { u with channel := some h.nextCh },
        h.nextCh + 1, h.closedCh⟩) := by
    simp [BindChannelToUserIfExists, hu, mapIndex_of_lookup hu]
  have h2eq : BindChannelToUserIfExists
      (⟨mapAssign h.users username { u with channel := some h.nextCh },
        h.nextCh + 1, h.closedCh⟩ : Handler) username u.token =
      (.bound, ⟨mapAssign (mapAssign h.users username { u with channel := some h.nextCh })
        username { u with channel := some (h.nextCh + 1) },
        h.nextCh + 2, h.closedCh⟩) := by
    simp [BindChannelToUserIfExists, hl1, mapIndex_of_lookup hl1]
  simp [h1eq, h2eq, hl1, lookup_assign_self]

/-- Claim C7 witness: the bind/rebind theorem applied to the state
`hLoggedIn` (`alice`, token `t1`, no channel yet). -/
theorem c7_bind_attaches_and_rebind_overwrites_witness :
    (mapLookup hLoggedIn.users "alice" =
      some { username := "alice", token := "t1", channel := none }) ∧
    ((BindChannelToUserIfExists hLoggedIn "alice" "t1").1 = .bound ∧
      mapLookup (BindChannelToUserIfExists hLoggedIn "alice" "t1").2.users "alice" =
        some { username := "alice", token := "t1", channel := some 0 } ∧
      (BindChannelToUserIfExists
        (BindChannelToUserIfExists hLoggedIn "alice" "t1").2 "alice" "t1").1 = .bound ∧
      mapLookup (BindChannelToUserIfExists
        (BindChannelToUserIfExists hLoggedIn "alice" "t1").2 "alice" "t1").2.users "alice" =
        some { username := "alice", token := "t1", channel := some 1 } ∧
      some 1 ≠ some 0) :=
  ⟨rfl, c7_bind_attaches_and_rebind_overwrites hLoggedIn "alice" "t1"
    { username := "alice", token := "t1", channel := none } rfl rfl⟩

/-- Claim C8. Neither successful channel attach nor channel detach ever
rewrites the `Username` or `Token` field of a present session record:
`BindChannelToUserIfExists` stores the old record with only the channel
replaced, and `DisconnectChannel` stores the old record verbatim. -/
theorem c8_username_token_preserved
    (h : Handler) (username token : String) (u : User)
    (hu : mapLookup h.users username = some u) :
    (u.token = token →
      mapLookup (BindChannelToUserIfExists h username token).2.users username =
        some { u with channel := some h.nextCh } ∧
      ({ u with channel := some h.nextCh } : User).username = u.username ∧
      ({ u with channel := some h.nextCh } : User).token = u.token) ∧
    (∀ h1, DisconnectChannel h username = .ok h1 →
      mapLookup h1.users username = some u) := by
  constructor
  · intro ht
    subst ht
    refine ⟨?_, rfl, rfl⟩
    simp [BindChannelToUserIfExists, hu, mapIndex_of_lookup hu, lookup_assign_self]
  · intro h1 hd
    have husers : h1.users = mapAssign h.users username u := by
      unfold DisconnectChannel at hd
      rw [mapIndex_of_lookup hu] at hd
      cases hc : u.channel with
      | none =>
          simp only [hc, Except.ok.injEq] at hd
          rw [← hd]
      | some c =>
          simp only [hc, closeChan] at hd
          by_cases hcl : c ∈ h.closedCh
          · rw [if_pos hcl] at hd
            exact absurd hd (by simp)
          · rw [if_neg hcl] at hd
            simp only [Except.ok.injEq] at hd
            rw [← hd]
    rw [husers]
    exact lookup_assign_self h.users username u

/-- Claim C8 witness: the preservation theorem applied to `hBound`
(`alice`, token `t1`, channel `0`). -/
theorem c8_username_token_preserved_witness :
    (mapLookup hBound.users "alice" =
      some { username := "alice", token := "t1", channel := some 0 }) ∧
    ((({ username := "alice", token := "t1", channel := some 0 } : User).token = "t1" →
      mapLookup (BindChannelToUserIfExists hBound "alice" "t1").2.users "alice" =
        some { username := "alice", token := "t1", channel := some hBound.nextCh } ∧
      ({ username := "alice", token := "t1", channel := some hBound.nextCh } : User).username
          = "alice" ∧
      ({ username := "alice", token := "t1", channel := some hBound.nextCh } : User).token
          = "t1") ∧
    (∀ h1, DisconnectChannel hBound "alice" = .ok h1 →
      mapLookup h1.users "alice" =
        some { username := "alice", token := "t1", channel := some 0 })) :=
  ⟨rfl, c8_username_token_preserved hBound "alice" "t1"
    { username := "alice", token := "t1", channel := some 0 } rfl⟩

/-- Claim C6 counterexample. The payload `\x7b\x7d` — a valid JSON
object supplying neither an identity nor a token — is NOT rejected at
the parsing step: `json.Unmarshal` succeeds with both fields left at
the zero value `""`, and the handshake proceeds to the registry lookup,
failing there with the not-logged-in error rather than with the
malformed-handshake error. -/
theorem c6_counterexample_empty_object_parses :
    unmarshalUserWithToken (.obj []) = some { username := "", token := "" } ∧
    (streamHandshake h0 (some (.obj []))).1 = .notLoggedIn ∧
    (streamHandshake h0 (some (.obj []))).1 ≠ .malformedHandshake :=
  ⟨rfl, rfl, by decide⟩

/-- Claim C6 (amended). The handshake fails with the malformed-
handshake error exactly when the first frame cannot be unmarshalled
(syntactically invalid JSON, a non-object non-null value, or a
non-string `username`/`token` field); a valid JSON object that merely
omits identity or token decodes to empty strings and proceeds to the
registry lookup. -/
theorem c6_malformed_iff_unparseable (h : Handler) (frame : Option JsonValue) :
    (streamHandshake h frame).1 = .malformedHandshake ↔ handshakeParse frame = none := by
  cases hp : handshakeParse frame with
  | none => simp [streamHandshake, hp]
  | some req =>
      cases hb : BindChannelToUserIfExists h req.username req.token with
      | mk o h1 => cases o <;> simp [streamHandshake, hp, hb]

/-- Claim C9 counterexample. `BindChannelToUserIfExists` called for an
identity absent from the registry writes the error message to the
websocket (handler.go line 267) strictly between `Lock()` (261) and the
deferred `Unlock()` (262): a network write is performed while the
registry lock is held. -/
theorem c9_counterexample_bind_writes_under_lock :
    netWriteWhileLocked (bindTrace h0 "alice" "t1") 0 = true := rfl

/-- Claim C9 (amended). Only the stream-termination detach and the
success path of `BindChannelToUserIfExists` restrict the lock scope to
in-memory mutation; `login` (both branches), `logout` (shown for the
absent-identity branch) and the failure paths of
`BindChannelToUserIfExists` all perform a network write — the HTTP
response or the websocket error message — while the registry lock is
held. -/
theorem c9_lock_scope_amended (h : Handler) (username token : String) :
    netWriteWhileLocked (loginTrace h username) 0 = true ∧
    ((mapLookup h.users username).isNone →
      netWriteWhileLocked (logoutTrace h username token) 0 = true) ∧
    ((mapLookup h.users username).isNone →
      netWriteWhileLocked (bindTrace h username token) 0 = true) ∧
    (∀ u, mapLookup h.users username = some u → u.token ≠ token →
      netWriteWhileLocked (bindTrace h username token) 0 = true) ∧
    (∀ u, mapLookup h.users username = some u → u.token = token →
      netWriteWhileLocked (bindTrace h username token) 0 = false) ∧
    netWriteWhileLocked streamTerminationTrace 0 = false := by
  refine ⟨?_, ?_, ?_, ?_, ?_, rfl⟩
  · by_cases hs : (mapLookup h.users username).isSome <;>
      simp [loginTrace, hs, netWriteWhileLocked]
  · intro hn
    simp [logoutTrace, hn, netWriteWhileLocked]
  · intro hn
    simp [bindTrace, hn, netWriteWhileLocked]
  · intro u hu ht
    simp [bindTrace, hu, mapIndex_of_lookup hu, ht, netWriteWhileLocked]
  · intro u hu ht
    simp [bindTrace, hu, mapIndex_of_lookup hu, ht, netWriteWhileLocked]

/-- Claim C9 witness: on the empty registry the bind failure path
writes under the lock; on `hLoggedIn` with the matching token the bind
success path holds the lock only for the in-memory mutation. -/
theorem c9_lock_scope_amended_witness :
    ((mapLookup h0.users "alice").isNone = true ∧
      netWriteWhileLocked (bindTrace h0 "alice" "t1") 0 = true) ∧
    (mapLookup hLoggedIn.users "alice" =
        some { username := "alice", token := "t1", channel := none } ∧
      netWriteWhileLocked (bindTrace hLoggedIn "alice" "t1") 0 = false) :=
  ⟨⟨rfl, (c9_lock_scope_amended h0 "alice" "t1").2.2.1 rfl⟩,
   ⟨rfl, (c9_lock_scope_amended hLoggedIn "alice" "t1").2.2.2.2.1
      { username := "alice", token := "t1", channel := none } rfl rfl⟩⟩

/-- Claim C10. `login` never validates the username value: any JSON
object body that omits the `username` field, or supplies it as the
empty string, decodes to `username = ""`, and login then proceeds
normally, inserting a registry session keyed by the empty string and
returning the generated token for it. -/
theorem c10_login_no_username_validation
    (h : Handler) (fields : List (String × JsonValue)) (freshToken : String)
    (hf : fieldLookup fields "username" = none ∨
      fieldLookup fields "username" = some (.str ""))
    (habsent : mapLookup h.users "" = none) :
    unmarshalUserLogin (.obj fields) = some { username := "" } ∧
    (login h "" freshToken).1 = .ok freshToken ∧
    mapLookup (login h "" freshToken).2.users "" =
      some { username := "", token := freshToken, channel := none } := by
  refine ⟨?_, ?_, ?_⟩
  · rcases hf with hf | hf <;> simp [unmarshalUserLogin, hf, decodeStringField]
  · simp [login, habsent]
  · simp [login, habsent, lookup_assign_self]

/-- Claim C10 witness: the empty JSON object body on the empty
registry yields a session for the empty username with token `t1`. -/
theorem c10_login_no_username_validation_witness :
    (fieldLookup [] "username" = none ∨
      fieldLookup [] "username" = some (.str "")) ∧
    mapLookup h0.users "" = none ∧
    (unmarshalUserLogin (.obj []) = some { username := "" } ∧
      (login h0 "" "t1").1 = .ok "t1" ∧
      mapLookup (login h0 "" "t1").2.users "" =
        some { username := "", token := "t1", channel := none }) :=
  ⟨Or.inl rfl, rfl, c10_login_no_username_validation h0 [] "t1" (Or.inl rfl) rfl⟩

end ChatRoom
